import Mathlib

/-!
Verification of the consulta-csjn web application (`src/app.py`).

The file shallowly embeds the two functions the specification covers:

* `guardar_en_bd` (the Persistence Gate): its control flow is modelled
  directly from the Python source.  Every effectful operation of the MySQL
  driver (connect, open cursor, execute DDL, execute insert, commit,
  cursor close, connection close) is recorded as an `Event` in a trace,
  and each operation may independently succeed or raise, governed by a
  `DBOracle` that stands for the state of the environment/driver/database.
  The Python `try/except Exception/finally` structure is reproduced
  faithfully: the `except` clause catches everything raised inside the
  `try` body, while the `finally` block's `cursor.close()` / `conn.close()`
  calls run unprotected, so an exception raised there escapes the
  function (this is visible in the model as `GateResult.raised = some msg`).

* `index` (the Request Handler): `GET`/`POST` dispatch, the
  `request.form.get('codigo', '').strip()` read, the emptiness check, the
  single `consulta_cedula(codigo, headless=True, timeout=60)` invocation
  (modelled by an `Except String QueryResult` oracle), the
  `estado.to_dict()` conversion, the call to `guardar_en_bd`, and the
  `except Exception as exc` handler that flashes
  `'Error al consultar la cédula: ' + str(exc)`.

Environment variables are modelled as `Option String` (unset = `none`);
Python truthiness of such a value (`all(cfg.values())`) is `truthy`.
-/

set_option maxRecDepth 100000

namespace ConsultaCSJN

/-- The nine-field plain mapping (`datos` dict) passed to `guardar_en_bd`;
its keys are the column names bound by the INSERT statement. -/
structure Record where
  codigo_de_barras : String
  fuero : String
  juzgado : String
  zona : String
  fecha_ingreso : String
  fecha_asignacion_zona : String
  fecha_devolucion : String
  resultado_diligencia : String
  fecha_disposicion_juzgado : String
deriving DecidableEq, Repr

/-- Environment variables read by `guardar_en_bd`; `none` = unset. -/
structure Env where
  DB_HOST : Option String
  DB_USER : Option String
  DB_PASSWORD : Option String
  DB_NAME : Option String
  DB_TABLE : Option String
deriving DecidableEq, Repr

/-- Python truthiness of `os.environ.get(...)`: `None` and `''` are falsy,
every other string is truthy. -/
def truthy : Option String → Bool
  | none => false
  | some s => s != ""

/-- One effectful step of the persistence path, as recorded in the trace.
Log events carry no payload; the two `cursor.execute` call sites carry the
exact SQL text built by the f-strings of the source (and the insert also
the bound record).  An event records that the operation was *invoked*;
whether it succeeded is determined by the `DBOracle`. -/
inductive Event where
  | logWarning
  | logInfo
  | logError
  | connect
  | openCursor
  | execDDL (sql : String)
  | execInsert (sql : String) (datos : Record)
  | commit
  | closeCursor
  | closeConn
deriving DecidableEq, Repr

/-- Outcome oracle for the driver/database operations of one
`guardar_en_bd` call: each flag tells whether the corresponding operation
succeeds (`true`) or raises.  The two message fields are the exception
descriptions of a failing `cursor.close()` / `conn.close()`, the only
operations whose exception can escape the function. -/
structure DBOracle where
  connectOk : Bool
  cursorOk : Bool
  ddlOk : Bool
  insertOk : Bool
  commitOk : Bool
  closeCursorOk : Bool
  closeConnOk : Bool
  closeCursorMsg : String
  closeConnMsg : String
deriving DecidableEq, Repr

/-- Leading fragment of the CREATE TABLE f-string, up to the point where
`{tabla}` is interpolated. -/
def createTableHead : String :=
  "\n            CREATE TABLE IF NOT EXISTS "

/-- Trailing fragment of the CREATE TABLE f-string, after `{tabla}`. -/
def createTableTail : String :=
  " (\n" ++
  "                id INT AUTO_INCREMENT PRIMARY KEY,\n" ++
  "                codigo_de_barras VARCHAR(20) NOT NULL,\n" ++
  "                fuero VARCHAR(10),\n" ++
  "                juzgado VARCHAR(10),\n" ++
  "                zona VARCHAR(10),\n" ++
  "                fecha_ingreso VARCHAR(20),\n" ++
  "                fecha_asignacion_zona VARCHAR(20),\n" ++
  "                fecha_devolucion VARCHAR(20),\n" ++
  "                resultado_diligencia VARCHAR(20),\n" ++
  "                fecha_disposicion_juzgado VARCHAR(20),\n" ++
  "                fecha_registro TIMESTAMP DEFAULT CURRENT_TIMESTAMP\n" ++
  "            ) ENGINE=InnoDB DEFAULT CHARSET=utf8mb4;\n        "

/-- SQL text of the CREATE TABLE statement: the table name taken from
`DB_TABLE` is spliced in verbatim by the f-string. -/
def createTableSQL (tabla : String) : String :=
  createTableHead ++ tabla ++ createTableTail

/-- Leading fragment of the INSERT f-string, up to `{tabla}`. -/
def insertHead : String :=
  "\n            INSERT INTO "

/-- Trailing fragment of the INSERT f-string, after `{tabla}`. -/
def insertTail : String :=
  " (codigo_de_barras, fuero, juzgado, zona,\n" ++
  "                                 fecha_ingreso, fecha_asignacion_zona,\n" ++
  "                                 fecha_devolucion, resultado_diligencia,\n" ++
  "                                 fecha_disposicion_juzgado)\n" ++
  "            VALUES (%(codigo_de_barras)s, %(fuero)s, %(juzgado)s, %(zona)s,\n" ++
  "                    %(fecha_ingreso)s, %(fecha_asignacion_zona)s,\n" ++
  "                    %(fecha_devolucion)s, %(resultado_diligencia)s,\n" ++
  "                    %(fecha_disposicion_juzgado)s)\n        "

/-- SQL text of the INSERT statement, with the table name spliced in
verbatim. -/
def insertSQL (tabla : String) : String :=
  insertHead ++ tabla ++ insertTail

/-- Result of one `guardar_en_bd` call: the operation trace and, when an
exception escaped the function (possible only from the unprotected
`finally` block), its description. -/
structure GateResult where
  events : List Event
  raised : Option String
deriving DecidableEq, Repr

/-- Shallow embedding of `guardar_en_bd` (src/app.py lines 50-116).

Control flow of the source, step by step:
1. `if mysql is None: log warning; return` (`driverAvailable = false`).
2. Read `DB_HOST`/`DB_USER`/`DB_PASSWORD`/`DB_NAME`; `if not all(cfg.values())`
   (any unset or empty) `: log info; return`.
3. `tabla = os.environ.get('DB_TABLE', 'cedulas')` — `Option.getD`, so the
   default applies only when the variable is entirely unset.
4. `try:` connect; cursor; execute DDL; execute insert; commit; log info —
   the trace records each operation invoked up to and including the first
   failing one; the local variables `conn`/`cursor` are bound exactly when
   their producing call succeeded.
5. `except Exception:` log error (catches any failure of step 4).
6. `finally:` `if 'cursor' in locals(): cursor.close()` then
   `if 'conn' in locals(): conn.close()` — unprotected: a raising
   `cursor.close()` escapes the function and skips `conn.close()`; a
   raising `conn.close()` escapes as well. -/
def guardar_en_bd (driverAvailable : Bool) (env : Env) (o : DBOracle)
    (datos : Record) : GateResult :=
  if !driverAvailable then
    ⟨[Event.logWarning], none⟩
  else if !(truthy env.DB_HOST && truthy env.DB_USER &&
            truthy env.DB_PASSWORD && truthy env.DB_NAME) then
    ⟨[Event.logInfo], none⟩
  else
    let tabla := env.DB_TABLE.getD "cedulas"
    -- try body: (trace, body raised?, conn bound?, cursor bound?)
    let body : List Event × Bool × Bool × Bool :=
      if !o.connectOk then
        ([Event.connect], true, false, false)
      else if !o.cursorOk then
        ([Event.connect, Event.openCursor], true, true, false)
      else if !o.ddlOk then
        ([Event.connect, Event.openCursor,
          Event.execDDL (createTableSQL tabla)], true, true, true)
      else if !o.insertOk then
        ([Event.connect, Event.openCursor,
          Event.execDDL (createTableSQL tabla),
          Event.execInsert (insertSQL tabla) datos], true, true, true)
      else if !o.commitOk then
        ([Event.connect, Event.openCursor,
          Event.execDDL (createTableSQL tabla),
          Event.execInsert (insertSQL tabla) datos,
          Event.commit], true, true, true)
      else
        ([Event.connect, Event.openCursor,
          Event.execDDL (createTableSQL tabla),
          Event.execInsert (insertSQL tabla) datos,
          Event.commit, Event.logInfo], false, true, true)
    match body with
    | (ev, exc, connBound, cursorBound) =>
      let ev := if exc then ev ++ [Event.logError] else ev
      if cursorBound then
        if !o.closeCursorOk then
          ⟨ev ++ [Event.closeCursor], some o.closeCursorMsg⟩
        else if connBound then
          ⟨ev ++ [Event.closeCursor, Event.closeConn],
           if o.closeConnOk then none else some o.closeConnMsg⟩
        else
          ⟨ev ++ [Event.closeCursor], none⟩
      else if connBound then
        ⟨ev ++ [Event.closeConn],
         if o.closeConnOk then none else some o.closeConnMsg⟩
      else
        ⟨ev, none⟩

/-- True on the driver/database operations, false on the log lines. -/
def isDbOp : Event → Bool
  | Event.logWarning => false
  | Event.logInfo => false
  | Event.logError => false
  | _ => true

/-- True exactly on the ensure-table, insert and commit events (the
mutating statements of the persistence path). -/
def isMutOp : Event → Bool
  | Event.execDDL _ => true
  | Event.execInsert _ _ => true
  | Event.commit => true
  | _ => false

/-- Modelled from the spec: the `consulta_cedula` module (the Query
Collaborator, imported by src/app.py but not part of the given sources)
returns a structured object with the nine fields listed in spec section 3,
all strings. -/
structure QueryResult where
  document_id : String
  jurisdiction : String
  court : String
  zone : String
  intake_date : String
  zone_assignment_date : String
  return_date : String
  proceeding_outcome : String
  disposition_date : String
deriving DecidableEq, Repr

/-- Modelled from the spec: `estado.to_dict()` of the missing
`consulta_cedula` module converts the QueryResult to the plain field
mapping whose keys are the persisted column names (spec sections 3 and 6
list the nine fields and the nine columns in the same order), with no
transformation of the values. -/
def QueryResult.to_dict (q : QueryResult) : Record :=
  ⟨q.document_id, q.jurisdiction, q.court, q.zone, q.intake_date,
   q.zone_assignment_date, q.return_date, q.proceeding_outcome,
   q.disposition_date⟩

/-- HTTP method of the single route. -/
inductive Method where
  | get
  | post
deriving DecidableEq, Repr

/-- ASCII whitespace stripped by Python `str.strip()`. -/
def isPySpace (c : Char) : Bool :=
  c == ' ' || c == '\t' || c == '\n' || c == '\r' || c == '\x0b' || c == '\x0c'

/-- Python `str.strip()`: drop whitespace from both ends. -/
def pyStrip (s : String) : String :=
  String.mk (((s.toList.dropWhile isPySpace).reverse.dropWhile isPySpace).reverse)

/-- One invocation of the Query Collaborator, with the arguments the
handler passes to `consulta_cedula`. -/
structure QueryCall where
  codigo : String
  headless : Bool
  timeout : Nat
deriving DecidableEq, Repr

/-- Observable outcome of one request to `index`: the view model handed to
`render_template` (`resultado`), the flashed messages (text, category),
the Query Collaborator invocations, and the Persistence Gate's trace
(empty when the gate was never called). -/
structure IndexResult where
  resultado : Option Record
  flashes : List (String × String)
  queryCalls : List QueryCall
  gateEvents : List Event
deriving DecidableEq, Repr

/-- Shallow embedding of the route handler `index` (src/app.py
lines 119-136).

* `GET`: render with `resultado = None`.
* `POST`: `codigo = request.form.get('codigo', '').strip()`; if falsy,
  flash the validation message and render with no result; otherwise call
  `consulta_cedula(codigo, headless=True, timeout=60)` inside `try`.
  On success, `resultado = estado.to_dict()` and then
  `guardar_en_bd(resultado)` — still inside the `try`, so if the gate
  itself raises (unprotected `finally`), the handler's
  `except Exception as exc` catches it and flashes
  `'Error al consultar la cédula: ' + str(exc)`, while `resultado`
  keeps the value already assigned.  On a query failure the same
  `except` flashes the message with the failure's description and
  `resultado` stays `None`.  The handler always returns normally. -/
def index (method : Method) (form_codigo : Option String)
    (query : Except String QueryResult)
    (driverAvailable : Bool) (env : Env) (o : DBOracle) : IndexResult :=
  match method with
  | Method.get => ⟨none, [], [], []⟩
  | Method.post =>
    let codigo := pyStrip (form_codigo.getD "")
    if codigo = "" then
      ⟨none, [("Debe ingresar un número de código de barras.", "error")],
       [], []⟩
    else
      match query with
      | Except.error exc =>
        ⟨none, [("Error al consultar la cédula: " ++ exc, "error")],
         [⟨codigo, true, 60⟩], []⟩
      | Except.ok estado =>
        let resultado := estado.to_dict
        let g := guardar_en_bd driverAvailable env o resultado
        match g.raised with
        | some m =>
          ⟨some resultado,
           [("Error al consultar la cédula: " ++ m, "error")],
           [⟨codigo, true, 60⟩], g.events⟩
        | none =>
          ⟨some resultado, [], [⟨codigo, true, 60⟩], g.events⟩

/-- A record with the values of the spec's worked scenario. -/
def rec0 : Record :=
  ⟨"12345", "CIV", "J1", "Z1", "2025-01-01", "2025-01-02", "",
   "PENDIENTE", ""⟩

/-- A QueryResult with the values of the spec's worked scenario. -/
def qr0 : QueryResult :=
  ⟨"12345", "CIV", "J1", "Z1", "2025-01-01", "2025-01-02", "",
   "PENDIENTE", ""⟩

/-- A complete database configuration (all four required values set and
non-empty, `DB_TABLE` unset). -/
def envFull : Env := ⟨some "h", some "u", some "p", some "d", none⟩

/-- Driver/database condition in which every operation succeeds. -/
def oracleAllOk : DBOracle :=
  ⟨true, true, true, true, true, true, true,
   "Unread result found", "Lost connection to MySQL server"⟩

/-- Condition in which everything succeeds except `cursor.close()`. -/
def oracleBadCursorClose : DBOracle :=
  { oracleAllOk with closeCursorOk := false }

/-- Condition in which the insert raises and `cursor.close()` raises. -/
def oracleBadInsertBadCursorClose : DBOracle :=
  { oracleAllOk with insertOk := false, closeCursorOk := false }

/-- A configuration with `DB_PASSWORD` unset (incomplete). -/
def envNoPass : Env := ⟨some "h", some "u", none, some "d", none⟩

/-- Claim C2: whenever at least one of host/user/password/database is
unset or empty, `guardar_en_bd` performs zero database operations (its
trace holds only log events — in particular no connect, no DDL, no
insert) and returns without error.  The claim's second sentence ("a write
is attempted only when all four values are non-empty") is the
contrapositive of this statement restricted to the insert event. -/
theorem c2_incomplete_config_skips
    (d : Bool) (env : Env) (o : DBOracle) (r : Record)
    (h : (truthy env.DB_HOST && truthy env.DB_USER &&
          truthy env.DB_PASSWORD && truthy env.DB_NAME) = false) :
    (guardar_en_bd d env o r).raised = none ∧
    ∀ e ∈ (guardar_en_bd d env o r).events, isDbOp e = false := by
  cases d <;> simp [guardar_en_bd, h, isDbOp]

/-- Witness for C2: concrete incomplete configuration (password unset). -/
theorem c2_witness :
    (truthy envNoPass.DB_HOST && truthy envNoPass.DB_USER &&
     truthy envNoPass.DB_PASSWORD && truthy envNoPass.DB_NAME) = false ∧
    ((guardar_en_bd true envNoPass oracleAllOk rec0).raised = none ∧
     ∀ e ∈ (guardar_en_bd true envNoPass oracleAllOk rec0).events,
       isDbOp e = false) :=
  ⟨by decide, c2_incomplete_config_skips true envNoPass oracleAllOk rec0 (by decide)⟩

/-- Claim C3: on a POST whose `codigo` trims to the empty string, the
handler makes no Query Collaborator call, no persistence call, queues the
validation flash, and renders with no result. -/
theorem c3_empty_codigo_no_calls
    (f : Option String) (q : Except String QueryResult)
    (d : Bool) (env : Env) (o : DBOracle)
    (h : pyStrip (f.getD "") = "") :
    index Method.post f q d env o =
      ⟨none, [("Debe ingresar un número de código de barras.", "error")],
       [], []⟩ := by
  simp [index, h]

/-- Witness for C3: whitespace-only `codigo`. -/
theorem c3_witness :
    pyStrip ((some "   " : Option String).getD "") = "" ∧
    index Method.post (some "   ") (Except.error "x") true envFull oracleAllOk =
      ⟨none, [("Debe ingresar un número de código de barras.", "error")],
       [], []⟩ :=
  ⟨by decide,
   c3_empty_codigo_no_calls (some "   ") (Except.error "x") true envFull
     oracleAllOk (by decide)⟩

/-- Claim C8: with the driver library unavailable, `guardar_en_bd` logs a
warning and returns at once (no insert, no raise), and a successful
query's result is still rendered, the gate trace of that request being
exactly the warning. -/
theorem c8_driver_absent_warns_and_renders
    (env : Env) (o : DBOracle) (r : Record)
    (f : Option String) (estado : QueryResult)
    (h : pyStrip (f.getD "") ≠ "") :
    guardar_en_bd false env o r = ⟨[Event.logWarning], none⟩ ∧
    (index Method.post f (Except.ok estado) false env o).resultado =
      some estado.to_dict ∧
    (index Method.post f (Except.ok estado) false env o).gateEvents =
      [Event.logWarning] := by
  refine ⟨rfl, ?_, ?_⟩ <;> simp [index, h, guardar_en_bd]

/-- Witness for C8: the spec's worked scenario with the driver absent. -/
theorem c8_witness :
    pyStrip ((some "12345" : Option String).getD "") ≠ "" ∧
    (guardar_en_bd false envFull oracleAllOk rec0 =
       ⟨[Event.logWarning], none⟩ ∧
     (index Method.post (some "12345") (Except.ok qr0) false envFull
        oracleAllOk).resultado = some qr0.to_dict ∧
     (index Method.post (some "12345") (Except.ok qr0) false envFull
        oracleAllOk).gateEvents = [Event.logWarning]) :=
  ⟨by decide,
   c8_driver_absent_warns_and_renders envFull oracleAllOk rec0 (some "12345")
     qr0 (by decide)⟩

/-- Claim C9: on a POST with a non-empty trimmed `codigo`, the handler
invokes the Query Collaborator exactly once, with the trimmed identifier,
`headless = true` and `timeout = 60`. -/
theorem c9_query_invoked_once
    (f : Option String) (q : Except String QueryResult)
    (d : Bool) (env : Env) (o : DBOracle)
    (h : pyStrip (f.getD "") ≠ "") :
    (index Method.post f q d env o).queryCalls =
      [⟨pyStrip (f.getD ""), true, 60⟩] := by
  cases q with
  | error e => simp [index, h]
  | ok estado =>
    cases hg : (guardar_en_bd d env o estado.to_dict).raised <;>
      simp [index, h, hg]

/-- Witness for C9: `codigo = " 12345 "` is trimmed and passed once. -/
theorem c9_witness :
    pyStrip ((some " 12345 " : Option String).getD "") ≠ "" ∧
    (index Method.post (some " 12345 ") (Except.ok qr0) true envFull
       oracleAllOk).queryCalls =
      [⟨pyStrip ((some " 12345 " : Option String).getD ""), true, 60⟩] :=
  ⟨by decide,
   c9_query_invoked_once (some " 12345 ") (Except.ok qr0) true envFull
     oracleAllOk (by decide)⟩

/-- Counterexample to claim C1 as stated: with a complete configuration
and a condition in which every operation succeeds except `cursor.close()`,
the call raises past its own boundary — the `finally` block's close calls
are unprotected, so a resource-release failure is NOT caught. -/
theorem c1_counterexample :
    (guardar_en_bd true envFull oracleBadCursorClose rec0).raised ≠ none := by
  decide

/-- Claim C1 (amended): all failures at connect, table-ensure, insert and
commit are caught inside `guardar_en_bd` and the call returns normally;
only an exception raised by the resource-release calls
(`cursor.close()` / `conn.close()` in the `finally` block) can escape.
Hence: whenever the two close operations succeed, the call never raises,
whatever the environment, configuration and database condition. -/
theorem c1_no_raise_when_release_succeeds
    (d : Bool) (env : Env) (o : DBOracle) (r : Record)
    (h1 : o.closeCursorOk = true) (h2 : o.closeConnOk = true) :
    (guardar_en_bd d env o r).raised = none := by
  cases d
  · simp [guardar_en_bd]
  · by_cases hc : (truthy env.DB_HOST && truthy env.DB_USER &&
        truthy env.DB_PASSWORD && truthy env.DB_NAME) = true
    · cases h3 : o.connectOk <;> cases h4 : o.cursorOk <;>
        cases h5 : o.ddlOk <;> cases h6 : o.insertOk <;> cases h7 : o.commitOk <;>
        simp [guardar_en_bd, hc, h1, h2, h3, h4, h5, h6, h7]
    · simp only [Bool.not_eq_true] at hc
      simp [guardar_en_bd, hc]

/-- Witness for amended C1: all-succeeding condition, complete config. -/
theorem c1_witness :
    oracleAllOk.closeCursorOk = true ∧ oracleAllOk.closeConnOk = true ∧
    (guardar_en_bd true envFull oracleAllOk rec0).raised = none :=
  ⟨rfl, rfl,
   c1_no_raise_when_release_succeeds true envFull oracleAllOk rec0 rfl rfl⟩

/-- Counterexample to claim C4 as stated: the flash shown to the user is
`'Error al consultar la cédula: ' + str(exc)` — it embeds the Query
Collaborator's raw failure description verbatim (first conjunct), so it
is not a generic message: it varies with the internals of the failure
(second conjunct). -/
theorem c4_counterexample :
    (index Method.post (some "123")
       (Except.error "TimeoutException: Message: timed out at driver.find_element")
       true envFull oracleAllOk).flashes =
      [("Error al consultar la cédula: TimeoutException: Message: timed out at driver.find_element",
        "error")] ∧
    (index Method.post (some "123") (Except.error "detail A") true envFull
       oracleAllOk).flashes ≠
    (index Method.post (some "123") (Except.error "detail B") true envFull
       oracleAllOk).flashes := by
  constructor <;> decide

/-- Claim C4 (amended): on any Query Collaborator failure the handler
catches the exception (it never re-raises to the client), performs no
persistence call, renders with no result, and queues exactly one flash
consisting of the fixed text `'Error al consultar la cédula: '` followed
by the failure's description — the description (though not a stack
trace) is therefore user-visible, not logged server-side only. -/
theorem c4_query_failure_flashes_description
    (f : Option String) (exc : String)
    (d : Bool) (env : Env) (o : DBOracle)
    (h : pyStrip (f.getD "") ≠ "") :
    index Method.post f (Except.error exc) d env o =
      ⟨none, [("Error al consultar la cédula: " ++ exc, "error")],
       [⟨pyStrip (f.getD ""), true, 60⟩], []⟩ := by
  simp [index, h]

/-- Witness for amended C4: the "timeout" scenario of the spec. -/
theorem c4_witness :
    pyStrip ((some "12345" : Option String).getD "") ≠ "" ∧
    index Method.post (some "12345") (Except.error "timeout") true envFull
        oracleAllOk =
      ⟨none, [("Error al consultar la cédula: timeout", "error")],
       [⟨pyStrip ((some "12345" : Option String).getD ""), true, 60⟩], []⟩ :=
  ⟨by decide,
   c4_query_failure_flashes_description (some "12345") "timeout" true envFull
     oracleAllOk (by decide)⟩

/-- Claim C5: on a successful query the rendered view model is exactly
`estado.to_dict()`, and each of the nine fields of that mapping equals
the corresponding QueryResult field — no transformation is applied
between the collaborator's output and the view model. -/
theorem c5_rendered_fields_match
    (f : Option String) (estado : QueryResult)
    (d : Bool) (env : Env) (o : DBOracle)
    (h : pyStrip (f.getD "") ≠ "") :
    (index Method.post f (Except.ok estado) d env o).resultado =
      some estado.to_dict ∧
    estado.to_dict.codigo_de_barras = estado.document_id ∧
    estado.to_dict.fuero = estado.jurisdiction ∧
    estado.to_dict.juzgado = estado.court ∧
    estado.to_dict.zona = estado.zone ∧
    estado.to_dict.fecha_ingreso = estado.intake_date ∧
    estado.to_dict.fecha_asignacion_zona = estado.zone_assignment_date ∧
    estado.to_dict.fecha_devolucion = estado.return_date ∧
    estado.to_dict.resultado_diligencia = estado.proceeding_outcome ∧
    estado.to_dict.fecha_disposicion_juzgado = estado.disposition_date := by
  refine ⟨?_, rfl, rfl, rfl, rfl, rfl, rfl, rfl, rfl, rfl⟩
  cases hg : (guardar_en_bd d env o estado.to_dict).raised <;>
    simp [index, h, hg]

/-- Witness for C5: the spec's worked scenario. -/
theorem c5_witness :
    pyStrip ((some "12345" : Option String).getD "") ≠ "" ∧
    ((index Method.post (some "12345") (Except.ok qr0) true envFull
        oracleAllOk).resultado = some qr0.to_dict ∧
     qr0.to_dict.codigo_de_barras = qr0.document_id ∧
     qr0.to_dict.fuero = qr0.jurisdiction ∧
     qr0.to_dict.juzgado = qr0.court ∧
     qr0.to_dict.zona = qr0.zone ∧
     qr0.to_dict.fecha_ingreso = qr0.intake_date ∧
     qr0.to_dict.fecha_asignacion_zona = qr0.zone_assignment_date ∧
     qr0.to_dict.fecha_devolucion = qr0.return_date ∧
     qr0.to_dict.resultado_diligencia = qr0.proceeding_outcome ∧
     qr0.to_dict.fecha_disposicion_juzgado = qr0.disposition_date) :=
  ⟨by decide,
   c5_rendered_fields_match (some "12345") qr0 true envFull oracleAllOk
     (by decide)⟩

/-- Counterexample to claim C7 as stated: two requests identical except
for the database condition of the Persistence Gate — one where every
operation succeeds, one where `cursor.close()` raises — produce
different rendered responses: the escaping release failure is caught by
the handler's `except` and adds an error flash, so the gate's behaviour
does affect the response. -/
theorem c7_counterexample :
    (index Method.post (some "12345") (Except.ok qr0) true envFull
       oracleAllOk).flashes ≠
    (index Method.post (some "12345") (Except.ok qr0) true envFull
       oracleBadCursorClose).flashes := by
  decide

/-- Claim C7 (amended): whenever the Persistence Gate returns normally —
which covers success, configuration/driver skip, and any swallowed
connect/DDL/insert/commit failure — the rendered response is the same
fixed pair (result populated, no flash), independent of the gate's
outcome; moreover even when the gate raises (release failure), the view
is still rendered with the result populated, only an extra error flash
is added. -/
theorem c7_gate_outcome_preserves_response
    (f : Option String) (estado : QueryResult)
    (d : Bool) (env : Env) (o : DBOracle)
    (h : pyStrip (f.getD "") ≠ "") :
    (index Method.post f (Except.ok estado) d env o).resultado =
      some estado.to_dict ∧
    ((guardar_en_bd d env o estado.to_dict).raised = none →
      (index Method.post f (Except.ok estado) d env o).flashes = []) := by
  constructor
  · cases hg : (guardar_en_bd d env o estado.to_dict).raised <;>
      simp [index, h, hg]
  · intro hg
    simp [index, h, hg]

/-- Witness for amended C7: gate succeeds, response is the bare result. -/
theorem c7_witness :
    pyStrip ((some "12345" : Option String).getD "") ≠ "" ∧
    ((index Method.post (some "12345") (Except.ok qr0) true envFull
        oracleAllOk).resultado = some qr0.to_dict ∧
     ((guardar_en_bd true envFull oracleAllOk qr0.to_dict).raised = none →
       (index Method.post (some "12345") (Except.ok qr0) true envFull
          oracleAllOk).flashes = [])) :=
  ⟨by decide,
   c7_gate_outcome_preserves_response (some "12345") qr0 true envFull
     oracleAllOk (by decide)⟩

/-- Counterexample to claim C6 as stated: complete configuration, a
condition where the insert raises and `cursor.close()` raises.  The claim
demands one commit and release of the connection on this exit path; in
fact no commit is issued (the insert failed first) and `conn.close()` is
never invoked, because the raising `cursor.close()` aborts the `finally`
block before it. -/
theorem c6_counterexample :
    ¬ (Event.commit ∈
         (guardar_en_bd true envFull oracleBadInsertBadCursorClose rec0).events ∧
       Event.closeConn ∈
         (guardar_en_bd true envFull oracleBadInsertBadCursorClose rec0).events) := by
  decide

/-- Claim C6 (amended): with the driver present and a complete
configuration, one call issues at most one ensure-table, at most one
insert and at most one commit, in that order (the trace's mutating
statements form a prefix of [DDL, insert, commit]); exactly one of each
when no operation up to and including the cursor release fails; and the
handles are released on every
exit path of the try body — including when the insert raises — provided
the release calls themselves do not raise: when a cursor exists and its
close succeeds, both `cursor.close()` and `conn.close()` are invoked, and
when only the connection exists its close is invoked (a raising
`cursor.close()`, however, skips the connection release, and a failed
connect leaves nothing to release). -/
theorem c6_single_write_and_release
    (env : Env) (o : DBOracle) (r : Record)
    (hcfg : (truthy env.DB_HOST && truthy env.DB_USER &&
             truthy env.DB_PASSWORD && truthy env.DB_NAME) = true) :
    ((guardar_en_bd true env o r).events.filter isMutOp) <+:
      [Event.execDDL (createTableSQL (env.DB_TABLE.getD "cedulas")),
       Event.execInsert (insertSQL (env.DB_TABLE.getD "cedulas")) r,
       Event.commit] ∧
    ((o.connectOk && o.cursorOk && o.ddlOk && o.insertOk && o.commitOk &&
      o.closeCursorOk) = true →
      (guardar_en_bd true env o r).events =
        [Event.connect, Event.openCursor,
         Event.execDDL (createTableSQL (env.DB_TABLE.getD "cedulas")),
         Event.execInsert (insertSQL (env.DB_TABLE.getD "cedulas")) r,
         Event.commit, Event.logInfo, Event.closeCursor, Event.closeConn]) ∧
    (o.connectOk = true → o.cursorOk = true → o.closeCursorOk = true →
      Event.closeCursor ∈ (guardar_en_bd true env o r).events ∧
      Event.closeConn ∈ (guardar_en_bd true env o r).events) ∧
    (o.connectOk = true → o.cursorOk = false →
      Event.closeConn ∈ (guardar_en_bd true env o r).events) := by
  cases h3 : o.connectOk <;> cases h4 : o.cursorOk <;>
    cases h5 : o.ddlOk <;> cases h6 : o.insertOk <;> cases h7 : o.commitOk <;>
    cases h8 : o.closeCursorOk <;>
    simp [guardar_en_bd, hcfg, h3, h4, h5, h6, h7, h8, isMutOp,
          List.filter_cons, List.cons_prefix_cons, List.nil_prefix]

/-- Witness for amended C6: complete configuration, everything succeeds. -/
theorem c6_witness :
    (truthy envFull.DB_HOST && truthy envFull.DB_USER &&
     truthy envFull.DB_PASSWORD && truthy envFull.DB_NAME) = true ∧
    (((guardar_en_bd true envFull oracleAllOk rec0).events.filter isMutOp) <+:
       [Event.execDDL (createTableSQL (envFull.DB_TABLE.getD "cedulas")),
        Event.execInsert (insertSQL (envFull.DB_TABLE.getD "cedulas")) rec0,
        Event.commit] ∧
     ((oracleAllOk.connectOk && oracleAllOk.cursorOk && oracleAllOk.ddlOk &&
       oracleAllOk.insertOk && oracleAllOk.commitOk &&
       oracleAllOk.closeCursorOk) = true →
       (guardar_en_bd true envFull oracleAllOk rec0).events =
         [Event.connect, Event.openCursor,
          Event.execDDL (createTableSQL (envFull.DB_TABLE.getD "cedulas")),
          Event.execInsert (insertSQL (envFull.DB_TABLE.getD "cedulas")) rec0,
          Event.commit, Event.logInfo, Event.closeCursor, Event.closeConn]) ∧
     (oracleAllOk.connectOk = true → oracleAllOk.cursorOk = true →
       oracleAllOk.closeCursorOk = true →
       Event.closeCursor ∈ (guardar_en_bd true envFull oracleAllOk rec0).events ∧
       Event.closeConn ∈ (guardar_en_bd true envFull oracleAllOk rec0).events) ∧
     (oracleAllOk.connectOk = true → oracleAllOk.cursorOk = false →
       Event.closeConn ∈ (guardar_en_bd true envFull oracleAllOk rec0).events)) :=
  ⟨by decide, c6_single_write_and_release envFull oracleAllOk rec0 (by decide)⟩

/-- Claim C10: the table name is spliced verbatim into both SQL texts
(`createTableSQL`/`insertSQL` are literally a fixed head, the raw table
name, and a fixed tail — no quoting or sanitisation), and it is
`os.environ.get('DB_TABLE', 'cedulas')`: the default applies only when
`DB_TABLE` is entirely unset, while `DB_TABLE` set to `""` makes the
empty string the table name of the issued DDL. -/
theorem c10_table_name_verbatim (host user pw dbname : String)
    (hh : host ≠ "") (hu : user ≠ "") (hp : pw ≠ "") (hd : dbname ≠ "")
    (r : Record) (o : DBOracle)
    (hc : o.connectOk = true) (hcu : o.cursorOk = true) :
    (∀ t : Option String,
      Event.execDDL (createTableSQL (t.getD "cedulas")) ∈
        (guardar_en_bd true ⟨some host, some user, some pw, some dbname, t⟩
           o r).events) ∧
    (Event.execDDL (createTableSQL "") ∈
        (guardar_en_bd true
           ⟨some host, some user, some pw, some dbname, some ""⟩ o r).events) ∧
    (Event.execDDL (createTableSQL "cedulas") ∈
        (guardar_en_bd true
           ⟨some host, some user, some pw, some dbname, none⟩ o r).events) ∧
    (∀ tabla : String,
      createTableSQL tabla = createTableHead ++ tabla ++ createTableTail ∧
      insertSQL tabla = insertHead ++ tabla ++ insertTail) := by
  have key : ∀ t : Option String,
      Event.execDDL (createTableSQL (t.getD "cedulas")) ∈
        (guardar_en_bd true ⟨some host, some user, some pw, some dbname, t⟩
           o r).events := by
    intro t
    cases h5 : o.ddlOk <;> cases h6 : o.insertOk <;> cases h7 : o.commitOk <;>
      cases h8 : o.closeCursorOk <;>
      simp [guardar_en_bd, truthy, hh, hu, hp, hd, hc, hcu, h5, h6, h7, h8]
  exact ⟨key, key (some ""), key none, fun tabla => ⟨rfl, rfl⟩⟩

/-- Witness for C10: concrete non-empty configuration values. -/
theorem c10_witness :
    ("h" : String) ≠ "" ∧ ("u" : String) ≠ "" ∧ ("p" : String) ≠ "" ∧
    ("d" : String) ≠ "" ∧ oracleAllOk.connectOk = true ∧
    oracleAllOk.cursorOk = true ∧
    ((∀ t : Option String,
       Event.execDDL (createTableSQL (t.getD "cedulas")) ∈
         (guardar_en_bd true ⟨some "h", some "u", some "p", some "d", t⟩
            oracleAllOk rec0).events) ∧
     (Event.execDDL (createTableSQL "") ∈
         (guardar_en_bd true
            ⟨some "h", some "u", some "p", some "d", some ""⟩
            oracleAllOk rec0).events) ∧
     (Event.execDDL (createTableSQL "cedulas") ∈
         (guardar_en_bd true
            ⟨some "h", some "u", some "p", some "d", none⟩
            oracleAllOk rec0).events) ∧
     (∀ tabla : String,
       createTableSQL tabla = createTableHead ++ tabla ++ createTableTail ∧
       insertSQL tabla = insertHead ++ tabla ++ insertTail)) :=
  ⟨by decide, by decide, by decide, by decide, rfl, rfl,
   c10_table_name_verbatim "h" "u" "p" "d" (by decide) (by decide)
     (by decide) (by decide) rec0 oracleAllOk rfl rfl⟩

end ConsultaCSJN
